import Mathlib

set_option linter.unusedVariables false
set_option maxRecDepth 40000

/-!
Verification of the service-lifecycle supervisor in `caddy_deployer.py`
(class `CaddyDeployer`).  The Python code is shallowly embedded: pure string
manipulation is translated to Lean functions over `String`/`List Char`,
process/file-system effects are abstracted into an explicit environment
(`World`) whose fields record the outcome each OS probe would return at its
call site, and Python exceptions are modelled with `Except PyErr`.
-/

namespace Caddy

/-! ### Python string primitives (embedded on `List Char` to stay executable) -/

/-- Embeds Python `p.startswith(pre)` / `str.startswith`. -/
def strStarts (pre s : String) : Bool := pre.toList.isPrefixOf s.toList

/-- Boolean infix test on character lists: `listInfixB p l` is true iff `p`
occurs contiguously inside `l`.  Embeds Python's `p in s` substring test. -/
def listInfixB (p l : List Char) : Bool :=
  match l with
  | [] => p.isEmpty
  | _ :: rest => p.isPrefixOf l || listInfixB p rest

/-- Embeds Python `pat in s` (substring containment). -/
def containsStr (s pat : String) : Bool := listInfixB pat.toList s.toList

/-- Embeds Python `d.split(":")[0]`: the part of `d` before the first colon. -/
def beforeColon (d : String) : String := ⟨d.toList.takeWhile (fun c => !(c == ':'))⟩

/-- Whitespace characters stripped by Python `str.strip()` (ASCII subset). -/
def isPySpace (c : Char) : Bool :=
  c == ' ' || c == '\t' || c == '\n' || c == '\x0d' || c == '\x0b' || c == '\x0c'

/-- Embeds Python `s.strip()`. -/
def pyStrip (s : String) : String :=
  ⟨((s.toList.dropWhile isPySpace).reverse.dropWhile isPySpace).reverse⟩

/-- ASCII lowercasing of one character, as Python `str.lower()` does on ASCII. -/
def lowerChar (c : Char) : Char :=
  if 'A' ≤ c && c ≤ 'Z' then Char.ofNat (c.toNat + 32) else c

/-- Embeds Python `s.lower()` (ASCII fragment; the probed log substrings are ASCII). -/
def pyLower (s : String) : String := ⟨s.toList.map lowerChar⟩

/-- Embeds Python `l[-n:]`: the last `n` elements (all of them if fewer). -/
def lastN (n : Nat) (l : List α) : List α := l.drop (l.length - n)

/-- Embeds Python `s[:n]` on strings. -/
def takeStr (n : Nat) (s : String) : String := ⟨s.toList.take n⟩

/-! ### `generate_config` (caddy_deployer.py lines 166-294)

The observable behaviour of `generate_config` is the configuration text it
writes to `self.config_file`; the embedding returns that text.  `self.config_dir`
is the `cfgdir` parameter.  Literal braces of the Caddyfile templates are
written `\x7b`/`\x7d`. -/

/-- Lines 180-185: `is_local` classification of the `domain` listen spec. -/
def isLocalDomain (d : String) : Bool :=
  strStarts "localhost" d || strStarts "127." d || strStarts "0.0.0.0" d ||
    (containsStr d ":" &&
      (beforeColon d == "localhost" || beforeColon d == "127.0.0.1" ||
        beforeColon d == "0.0.0.0"))

/-- Line 219: `is_http_only = ":80" in domain or domain == ":80"`. -/
def isHttpOnly (d : String) : Bool := containsStr d ":80" || d == ":80"

/-- The three template variants of lines 186-283.  Which one is used is a
function of the `domain` string alone (the `if is_local / if is_http_only`
chain). -/
inductive ConfigVariant where
  | localDev
  | httpOnly
  | httpsProd
deriving DecidableEq

/-- The variant-selection chain of `generate_config`: local check first
(line 186), then the `:80` HTTP-only check (line 221), else HTTPS. -/
def selectVariant (domain : String) : ConfigVariant :=
  if isLocalDomain domain then .localDev
  else if isHttpOnly domain then .httpOnly
  else .httpsProd

/-- Template text between `{domain}` and `{backend_host}` (same in all variants). -/
def chunkProxy : String := " \x7b\n    reverse_proxy "

/-- Local template: text between `{backend_port}` and `{self.config_dir}`
(lines 189-210). -/
def localMid : String := " \x7b\n        # 支持流式响应（SSE）\n        flush_interval -1\n\n        # 超时设置\n        transport http \x7b\n            read_timeout 300s\n            write_timeout 300s\n            dial_timeout 30s\n        \x7d\n    \x7d\n\n    # 安全头部\n    header \x7b\n        X-Frame-Options \"SAMEORIGIN\"\n        X-Content-Type-Options \"nosniff\"\n        -Server\n    \x7d\n    \n    # 访问日志\n    log \x7b\n        output file "

/-- Local template: text after `{self.config_dir}` (lines 210-215, `roll_keep 3`). -/
def localTail : String := "/access.log \x7b\n            roll_size 100mb\n            roll_keep 3\n        \x7d\n    \x7d\n\x7d"

/-- HTTP-only production template: text between `{backend_port}` and
`{self.config_dir}` (lines 224-246; headers without HSTS). -/
def httpMid : String := " \x7b\n        # 支持流式响应（SSE）\n        flush_interval -1\n\n        # 超时设置\n        transport http \x7b\n            read_timeout 300s\n            write_timeout 300s\n            dial_timeout 30s\n        \x7d\n    \x7d\n\n    # 安全头部（不包含HSTS）\n    header \x7b\n        X-Frame-Options \"DENY\"\n        X-Content-Type-Options \"nosniff\"\n        Referrer-Policy \"strict-origin-when-cross-origin\"\n        -Server\n    \x7d\n    \n    # 访问日志\n    log \x7b\n        output file "

/-- HTTPS production template: text between `{backend_port}` and
`{self.config_dir}` (lines 255-277; headers include HSTS). -/
def httpsMid : String := " \x7b\n        # 支持流式响应（SSE）\n        flush_interval -1\n\n        # 超时设置\n        transport http \x7b\n            read_timeout 300s\n            write_timeout 300s\n            dial_timeout 30s\n        \x7d\n    \x7d\n\n    # 安全头部\n    header \x7b\n        Strict-Transport-Security \"max-age=31536000; includeSubDomains\"\n        X-Frame-Options \"DENY\"\n        X-Content-Type-Options \"nosniff\"\n        Referrer-Policy \"strict-origin-when-cross-origin\"\n        -Server\n    \x7d\n    \n    # 访问日志\n    log \x7b\n        output file "

/-- Production templates: text after `{self.config_dir}` (`roll_keep 5`,
lines 246-251 and 277-283). -/
def prodTail : String := "/access.log \x7b\n            roll_size 100mb\n            roll_keep 5\n        \x7d\n    \x7d\n\x7d"

/-- Renders one template variant with the interpolation holes filled, exactly
as the f-strings of lines 188-283 do. -/
def renderVariant (v : ConfigVariant) (cfgdir domain host : String) (port : Nat) : String :=
  match v with
  | .localDev =>
      domain ++ chunkProxy ++ host ++ ":" ++ Nat.repr port ++ localMid ++ cfgdir ++ localTail
  | .httpOnly =>
      domain ++ chunkProxy ++ host ++ ":" ++ Nat.repr port ++ httpMid ++ cfgdir ++ prodTail
  | .httpsProd =>
      domain ++ chunkProxy ++ host ++ ":" ++ Nat.repr port ++ httpsMid ++ cfgdir ++ prodTail

/-- Embedding of `generate_config(domain, backend_port, backend_host, enable_ssl, custom_config)`:
the configuration text written to the config file.  A custom config is used
verbatim (lines 174-176); otherwise the variant chosen from `domain` is
rendered.  `enable_ssl` is accepted and, as in the source, never read. -/
def generate_config (cfgdir domain host : String) (backend_port : Nat)
    (enable_ssl : Bool) (custom_config : Option String) : String :=
  match custom_config with
  | some c => c
  | none => renderVariant (selectVariant domain) cfgdir domain host backend_port

/-! ### Environment for process, file-system and network effects

Every OS probe the supervisor performs is recorded as a field of `World`: the
field holds the result that probe would produce at its call site.  Python
exceptions escaping an operation are modelled with `Except PyErr`; operations
whose Python implementation catches all its own exceptions (e.g.
`_check_any_caddy_process`, `_test_http_endpoint`, `_get_ssl_certificate_info`)
are total and appear as plain values/functions. -/

inductive PyErr where
  | valueError
  | osError
  | otherErr (msg : String)
deriving DecidableEq

/-- One observation of the startup polling loop (deploy lines 385-396):
whether `_check_pid_file_process()` sees the fresh PID alive, and the lines of
the log file that `_check_startup_errors` would read in that iteration. -/
structure PollObs where
  pidAlive : Bool
  logTail : List String
deriving DecidableEq

structure World where
  /-- Embedding of `self.pid_file.exists()`. -/
  pidFileExists : Bool
  /-- Embedding of `int(open(self.pid_file).read().strip())`: the parsed PID, or the
  exception the read/parse raises. -/
  pidFileParse : Except PyErr Nat
  /-- Embedding of `os.kill(pid, 0)` succeeding, i.e. the PID is alive (also the aliveness
  at the moment `undeploy` sends SIGTERM). -/
  pidAlive : Nat → Bool
  /-- Embedding of `_check_any_caddy_process()` (total: catches its own exceptions). -/
  anyCaddy : Bool
  /-- Aliveness of a PID after the 2-second grace sleep in `undeploy`. -/
  aliveAfterGrace : Nat → Bool
  /-- Embedding of `self.config_file.exists()`. -/
  configExists : Bool
  /-- Embedding of `validate_config()` (total: catches its own exceptions). -/
  validateOk : Bool
  /-- Embedding of `_extract_listening_ports()` (total: falls back to `[80, 443]`). -/
  extractedPorts : List Nat
  /-- Embedding of `_is_port_listening('127.0.0.1', p)`: catches socket errors internally,
  but e.g. `OverflowError` from an out-of-range port escapes it. -/
  portListening : Nat → Except PyErr Bool
  /-- Embedding of `_extract_frontend_endpoints()` (total: has a catch-all fallback). -/
  frontendEndpoints : List String
  /-- Success flag of `_test_http_endpoint(e)` (total: catches everything). -/
  httpTest : String → Bool
  /-- Embedding of `_extract_backend_endpoints()` (total). -/
  backends : List String
  /-- Embedding of `_test_backend_connection(host, port)` (total). -/
  backendConn : String → Nat → Bool
  /-- Embedding of `valid` flag of `_get_ssl_certificate_info(e)` (total: an exception in
  the probe is caught there and yields `valid=False`). -/
  certValid : String → Bool
  /-- Embedding of `_check_port_conflicts()['admin_port']` is not `None`. -/
  adminConflict : Bool
  /-- Ports in `_check_port_conflicts()['listening_ports']`. -/
  listenConflicts : List Nat
  /-- Embedding of `_get_running_caddy_processes()` PIDs. -/
  caddyProcs : List Nat
  /-- PID of the process spawned by `subprocess.Popen` in `deploy`. -/
  newPid : Nat
  /-- Observations of the startup polling loop, by iteration index. -/
  poll : Nat → PollObs
  /-- Lines of the log file when `_get_recent_logs` reads it after the loop. -/
  finalLog : List String

/-! ### `is_running` and the health checks (lines 468-514 and 676-910) -/

/-- Embedding of `_check_pid_file_process` (lines 478-499): PID file exists, parses, and
the PID is alive; any exception yields `False`. -/
def _check_pid_file_process (w : World) : Bool :=
  w.pidFileExists &&
    (match w.pidFileParse with
     | .ok pid => w.pidAlive pid
     | .error _ => false)

/-- Embedding of `is_running` (lines 468-476). -/
def is_running (w : World) : Bool :=
  _check_pid_file_process w || w.anyCaddy

/-- One health-check entry: the `status`, `required` and `message` keys that
every branch of the `_check_*` helpers sets (structured extras omitted). -/
structure CheckResult where
  status : String
  required : Bool
  message : String
deriving DecidableEq

/-- Embedding of `_check_process` (lines 706-732): inside the `try`, only the PID-file
read/parse can raise; the `except` arm returns the check's own error result. -/
def _check_process (w : World) : CheckResult :=
  if !(is_running w) then
    { status := "error", required := true, message := "Caddy进程未运行" }
  else if w.pidFileExists then
    match w.pidFileParse with
    | .ok _ => { status := "ok", required := true, message := "Caddy进程正常运行" }
    | .error _ => { status := "error", required := true, message := "进程检查失败" }
  else
    { status := "ok", required := true, message := "Caddy进程正常运行" }

/-- Embedding of `_check_config` (lines 734-764): `validate_config` is total, so the body
reduces to the two-way branch on existence and validity. -/
def _check_config (w : World) : CheckResult :=
  if !w.configExists then
    { status := "error", required := true, message := "配置文件不存在" }
  else if w.validateOk then
    { status := "ok", required := true, message := "配置文件有效" }
  else
    { status := "error", required := true, message := "配置文件验证失败" }

/-- The listening-port comprehension of `_check_ports` (lines 769-776), in the
`Except` monad because `_is_port_listening` can let an exception escape. -/
def collectListening (f : Nat → Except PyErr Bool) : List Nat → Except PyErr (List Nat)
  | [] => .ok []
  | p :: rest => do
      let b ← f p
      let r ← collectListening f rest
      pure (if b then p :: r else r)

/-- Embedding of `_check_ports` (lines 766-796). -/
def _check_ports (w : World) : CheckResult :=
  match collectListening w.portListening w.extractedPorts with
  | .error _ => { status := "error", required := true, message := "端口检查失败" }
  | .ok [] => { status := "error", required := true, message := "没有检测到监听端口" }
  | .ok _ => { status := "ok", required := true, message := "端口监听正常" }

/-- Embedding of `_check_frontend_connectivity` (lines 798-830): endpoints and the HTTP
probe are total, so the aggregation is a pure count of successes. -/
def _check_frontend_connectivity (w : World) : CheckResult :=
  let results := w.frontendEndpoints.map (fun e => (e, w.httpTest e))
  let successful := results.filter (fun r => r.2)
  if !successful.isEmpty then
    { status := "ok", required := true, message := "前端连接正常" }
  else
    { status := "error", required := true, message := "前端连接失败" }

/-- Embeds Python `s.split(c)` for a one-character separator. -/
def splitChar (c : Char) : List Char → List (List Char)
  | [] => [[]]
  | x :: rest =>
    let r := splitChar c rest
    if x == c then [] :: r
    else
      match r with
      | [] => [[x]]
      | h :: t => (x :: h) :: t

/-- Embeds Python `int(s)` for the non-negative decimal strings this code
feeds it (port numbers); anything else raises `ValueError`. -/
def pyToNat (s : String) : Option Nat :=
  if !s.toList.isEmpty && s.toList.all (fun c => c.isDigit) then
    some (s.toList.foldl (fun acc c => acc * 10 + (c.toNat - 48)) 0)
  else none

/-- Embedding of `host, port = backend.split(':')` plus `int(port)` (lines 840-841): raises
unless the backend spec has exactly one colon and a numeric port. -/
def parseBackend (b : String) : Except PyErr (String × Nat) :=
  match (splitChar ':' b.toList).map (fun l => (⟨l⟩ : String)) with
  | [h, p] =>
      match pyToNat p with
      | some n => .ok (h, n)
      | none => .error .valueError
  | _ => .error .valueError

/-- Embedding of `_check_backend_connectivity` (lines 832-869).  Note the asymmetric
`required` flag of the source: `True` in the ok branch (line 856), `False` in
both warning branches (lines 862 and 868). -/
def _check_backend_connectivity (w : World) : CheckResult :=
  match w.backends.mapM (fun b => do
      let hp ← parseBackend b
      pure (b, w.backendConn hp.1 hp.2)) with
  | .error (_ : PyErr) =>
      { status := "warning", required := false, message := "后端连通性检查失败" }
  | .ok results =>
      let successful := results.filter (fun r => r.2)
      if !successful.isEmpty then
        { status := "ok", required := true, message := "后端连接正常" }
      else
        { status := "warning", required := false, message := "部分或全部后端连接失败" }

/-- Embedding of `_extract_https_endpoints` (lines 1083-1086). -/
def _extract_https_endpoints (w : World) : List String :=
  w.frontendEndpoints.filter (fun e => strStarts "https://" e)

/-- Embedding of `_check_ssl_status` (lines 871-910): the certificate probe catches its own
exceptions (yielding `valid=False`), so the check is a pure aggregation;
`len(valid_certs) == len(results)` is `all`. -/
def _check_ssl_status (w : World) : CheckResult :=
  let eps := _extract_https_endpoints w
  if eps.isEmpty then
    { status := "info", required := false, message := "未配置HTTPS" }
  else if (eps.map w.certValid).all (fun v => v) then
    { status := "ok", required := false, message := "SSL证书状态正常" }
  else
    { status := "warning", required := false, message := "部分SSL证书存在问题" }

/-- The aggregation of lines 691-698:
`all(check['status'] == 'ok' for check in checks.values() if check['required'])`. -/
def overallStatus (checks : List (String × CheckResult)) : String :=
  if checks.all (fun c => !c.2.required || c.2.status == "ok") then "healthy"
  else "unhealthy"

/-- Embedding of `_get_recent_logs` (lines 1088-1097): the stripped last `n` log lines. -/
def _get_recent_logs (w : World) (n : Nat) : List String :=
  (lastN n w.finalLog).map pyStrip

/-- The report `health_check` returns (timestamp and static system info are
wall-clock/platform data, outside the model). -/
structure HealthReport where
  overall_status : String
  checks : List (String × CheckResult)
  logs : Option (List String)

/-- Embedding of `health_check` (lines 676-704). -/
def health_check (w : World) (detailed : Bool) : HealthReport :=
  let checks := [("process", _check_process w), ("config", _check_config w),
    ("ports", _check_ports w), ("frontend", _check_frontend_connectivity w),
    ("backend", _check_backend_connectivity w), ("ssl", _check_ssl_status w)]
  { overall_status := overallStatus checks
    checks := checks
    logs := if detailed then some (_get_recent_logs w 50) else none }

/-! ### Lifecycle: `undeploy`, `deploy` and the startup polling loop

The side effects `deploy`/`undeploy` perform are recorded as a trace of
actions; `sigterm`/`sigkill` record an invocation of `os.kill` (which raises
`ProcessLookupError`, swallowed by the source, when the PID is dead). -/

inductive Act where
  | sigterm (pid : Nat)
  | sigkill (pid : Nat)
  | unlinkPidFile
  | pkillCaddy
  | spawn (pid : Nat)
  | writePidFile (pid : Nat)
  | logDiag (lines : List String)
deriving DecidableEq

/-- Lines 432-437 (Unix branch):
`try: os.kill(pid, 15); time.sleep(2); os.kill(pid, 9) except ProcessLookupError: pass`.
If the PID is already dead, SIGTERM raises and the `except` skips the rest;
otherwise SIGKILL is invoked after the sleep unconditionally — there is no
aliveness re-check between the sleep and the SIGKILL. -/
def killSequence (w : World) (pid : Nat) : List Act :=
  if w.pidAlive pid then [.sigterm pid, .sigkill pid] else [.sigterm pid]

/-- Embedding of `undeploy` (lines 411-450, Unix branch): result flag and action trace. -/
def undeploy (w : World) : Bool × List Act :=
  if !(is_running w) then (true, [])
  else if w.pidFileExists then
    match w.pidFileParse with
    | .error _ => (false, [])
    | .ok pid => (true, killSequence w pid ++ [.unlinkPidFile, .pkillCaddy])
  else (true, [.pkillCaddy])

/-- Embedding of `_check_startup_errors`, classification of one log line (lines 622-634):
a line is inspected only if, stripped and lowercased, it contains `error:` or
`failed`; `address already in use` is tested first. -/
def classifyLine (rawLine : String) : Option String :=
  if containsStr (pyLower (pyStrip rawLine)) "error:"
      || containsStr (pyLower (pyStrip rawLine)) "failed" then
    if containsStr (pyLower (pyStrip rawLine)) "address already in use" then
      some "端口被占用"
    else if containsStr (pyLower (pyStrip rawLine)) "bind"
        && containsStr (pyLower (pyStrip rawLine)) "address" then
      some "端口绑定失败"
    else if containsStr (pyLower (pyStrip rawLine)) "permission denied" then
      some "权限不足"
    else if containsStr (pyLower (pyStrip rawLine)) "config" then
      some "配置文件错误"
    else
      some (takeStr 100 (pyLower (pyStrip rawLine)))
  else none

/-- The gating condition of `_check_startup_errors`: the stripped, lowercased
line contains `error:` or `failed`. -/
def isErrorLine (rawLine : String) : Bool :=
  containsStr (pyLower (pyStrip rawLine)) "error:"
    || containsStr (pyLower (pyStrip rawLine)) "failed"

/-- Embedding of `_check_startup_errors` (lines 610-638): first classification among the
last 10 log lines (a missing log file behaves like an empty one). -/
def _check_startup_errors (logLines : List String) : Option String :=
  (lastN 10 logLines).findSome? classifyLine

inductive StartOutcome where
  | success
  | startFailed (err : String)
  | timeout
deriving DecidableEq

/-- The polling loop of `deploy` (lines 384-396): at iteration `i` with `fuel`
iterations left, succeed if the fresh PID is alive, fail immediately on a
classified startup error, otherwise keep polling. -/
def pollFrom (obs : Nat → PollObs) : Nat → Nat → StartOutcome
  | _, 0 => .timeout
  | i, fuel + 1 =>
    if (obs i).pidAlive then .success
    else
      match _check_startup_errors (obs i).logTail with
      | some e => .startFailed e
      | none => pollFrom obs (i + 1) fuel

/-- The whole loop: `max_wait = 10` one-second iterations (line 384). -/
def deployPoll (obs : Nat → PollObs) : StartOutcome := pollFrom obs 0 10

/-- The pre-start conflict check of `deploy` (lines 326-343): on a conflict,
running caddy processes are cleaned up; a foreign occupant only warns. -/
def conflictActs (w : World) : List Act :=
  if w.adminConflict || !w.listenConflicts.isEmpty then
    if !w.caddyProcs.isEmpty then [.pkillCaddy] else []
  else []

/-- Embedding of `deploy` (lines 320-409): conflict check, implicit `undeploy` when already
running (its Boolean result is ignored, line 348), spawn + PID-file write,
then the polling loop; on timeout the last 5 of the last 10 stripped log lines
are surfaced (lines 399-404). -/
def deploy (w : World) : Bool × List Act :=
  let pre := conflictActs w
  let stop := if is_running w then (undeploy w).2 else []
  let start := [Act.spawn w.newPid, Act.writePidFile w.newPid]
  match deployPoll w.poll with
  | .success => (true, pre ++ stop ++ start)
  | .startFailed _ => (false, pre ++ stop ++ start)
  | .timeout => (false, pre ++ stop ++ start ++
      (if (_get_recent_logs w 10).isEmpty then []
       else [Act.logDiag (lastN 5 (_get_recent_logs w 10))]))

/-- Aliveness of a process after a trace of actions: a delivered SIGKILL to
its PID kills it, `pkill -f caddy` kills it when it is a caddy process;
SIGTERM alone is not assumed to kill (the process may ignore it within the
grace interval). -/
def aliveAfterActs (isCaddyProc : Bool) (pid : Nat) (acts : List Act) (alive0 : Bool) : Bool :=
  acts.foldl (fun al a =>
    match a with
    | .sigkill p => if p == pid then false else al
    | .pkillCaddy => if isCaddyProc then false else al
    | _ => al) alive0

/-- A quiescent environment (nothing running, nothing configured), used as the
base of the concrete scenarios below. -/
def baseWorld : World where
  pidFileExists := false
  pidFileParse := .error .osError
  pidAlive := fun _ => false
  anyCaddy := false
  aliveAfterGrace := fun _ => false
  configExists := false
  validateOk := false
  extractedPorts := []
  portListening := fun _ => .ok false
  frontendEndpoints := []
  httpTest := fun _ => false
  backends := []
  backendConn := fun _ _ => false
  certValid := fun _ => false
  adminConflict := false
  listenConflicts := []
  caddyProcs := []
  newPid := 5000
  poll := fun _ => ⟨false, []⟩
  finalLog := []

/-- Scenario: deploy keeps polling while the log tail shows an
`address already in use` error line. -/
def c3World : World :=
  { baseWorld with
      poll := fun _ =>
        ⟨false, ["error: listen tcp 127.0.0.1:80: address already in use"]⟩ }

/-- Scenario: the recorded PID 4242 is alive when SIGTERM is sent but has
exited by the end of the 2-second grace interval. -/
def c4World : World :=
  { baseWorld with
      pidFileExists := true
      pidFileParse := .ok 4242
      pidAlive := fun _ => true
      aliveAfterGrace := fun _ => false }

/-- Scenario: the service is running with recorded PID 4242 when `deploy` is
called again; the fresh process (PID 5000) comes up on the first poll. -/
def c5World : World :=
  { baseWorld with
      pidFileExists := true
      pidFileParse := .ok 4242
      pidAlive := fun _ => true
      poll := fun _ => ⟨true, []⟩ }

/-- Scenario: the fresh process never comes up and the log stays clean, so
the polling loop runs out its 10 iterations. -/
def c8World : World :=
  { baseWorld with finalLog := ["line one", "line two"] }

/-! ### Substring machinery

Soundness of the boolean substring test, and lemmas for reasoning about
occurrences of a pattern inside a concatenation of template chunks and
caller-supplied strings. -/

theorem listInfixB_iff (p : List Char) : ∀ l, listInfixB p l = true ↔ p <:+: l := by
  intro l
  induction l with
  | nil =>
    simp only [listInfixB, List.isEmpty_iff, List.infix_nil]
  | cons a rest ih =>
    simp only [listInfixB, Bool.or_eq_true, List.isPrefixOf_iff_prefix, ih,
      List.infix_cons_iff]

theorem containsStr_iff (s pat : String) :
    containsStr s pat = true ↔ pat.toList <:+: s.toList :=
  listInfixB_iff pat.toList s.toList

theorem containsStr_false_iff (s pat : String) :
    containsStr s pat = false ↔ ¬ pat.toList <:+: s.toList := by
  rw [← containsStr_iff]
  cases h : containsStr s pat <;> simp [h]

theorem strStarts_iff (pre s : String) :
    strStarts pre s = true ↔ pre.toList <+: s.toList :=
  List.isPrefixOf_iff_prefix

theorem toList_app (s t : String) : (s ++ t).toList = s.toList ++ t.toList := rfl

/-- An occurrence of `p` inside `a ++ b` lies inside `a`, inside `b`, or
straddles the boundary, splitting `p` into a nonempty suffix of `a` followed
by a nonempty prefix of `b`. -/
theorem infix_append_split {p a b : List Char} (h : p <:+: a ++ b) :
    p <:+: a ∨ p <:+: b ∨
      ∃ p₁ p₂, p = p₁ ++ p₂ ∧ p₁ ≠ [] ∧ p₂ ≠ [] ∧ p₁ <:+ a ∧ p₂ <+: b := by
  have hex : ∃ s t, s ++ p ++ t = a ++ b := h
  obtain ⟨s, t, hst⟩ := hex
  by_cases h1 : s.length + p.length ≤ a.length
  · left
    refine ⟨s, t.take (a.length - (s ++ p).length), ?_⟩
    have key2 : ((s ++ p) ++ t).take a.length = a := by
      rw [hst]; exact List.take_left' rfl
    have key : ((s ++ p) ++ t).take a.length =
        (s ++ p) ++ t.take (a.length - (s ++ p).length) := by
      rw [List.take_append_eq_append_take,
        List.take_of_length_le (by simp only [List.length_append]; omega)]
    exact key.symm.trans key2
  · by_cases h2 : a.length ≤ s.length
    · right; left
      refine ⟨s.drop a.length, t, ?_⟩
      have key2 : ((s ++ p) ++ t).drop a.length = b := by
        rw [hst]; exact List.drop_left' rfl
      have key : ((s ++ p) ++ t).drop a.length = s.drop a.length ++ p ++ t := by
        rw [List.drop_append_eq_append_drop, List.drop_append_eq_append_drop]
        have e1 : a.length - s.length = 0 := by omega
        have e2 : a.length - (s ++ p).length = 0 := by
          simp only [List.length_append]; omega
        rw [e1, e2]
        simp
      exact key.symm.trans key2
    · right; right
      refine ⟨p.take (a.length - s.length), p.drop (a.length - s.length),
        (List.take_append_drop _ p).symm, ?_, ?_, ?_, ?_⟩
      · intro hnil
        have := congrArg List.length hnil
        simp only [List.length_take, List.length_nil] at this
        omega
      · intro hnil
        have := congrArg List.length hnil
        simp only [List.length_drop, List.length_nil] at this
        omega
      · refine ⟨s, ?_⟩
        have key2 : ((s ++ p) ++ t).take a.length = a := by
          rw [hst]; exact List.take_left' rfl
        have key : ((s ++ p) ++ t).take a.length =
            s ++ p.take (a.length - s.length) := by
          rw [List.take_append_eq_append_take, List.take_append_eq_append_take,
            List.take_of_length_le (by omega)]
          have e : a.length - (s ++ p).length = 0 := by
            simp only [List.length_append]; omega
          rw [e]
          simp
        exact key.symm.trans key2
      · refine ⟨t, ?_⟩
        have key2 : ((s ++ p) ++ t).drop a.length = b := by
          rw [hst]; exact List.drop_left' rfl
        have key : ((s ++ p) ++ t).drop a.length =
            p.drop (a.length - s.length) ++ t := by
          rw [List.drop_append_eq_append_drop, List.drop_append_eq_append_drop]
          have e1 : s.drop a.length = [] := List.drop_of_length_le (by omega)
          have e2 : a.length - (s ++ p).length = 0 := by
            simp only [List.length_append]; omega
          rw [e1, e2]
          simp
        exact key.symm.trans key2

/-- If `p` occurs neither in `a` nor in `b` and cannot straddle the boundary,
it does not occur in `a ++ b`. -/
theorem not_infix_append_aux {p a b : List Char}
    (ha : ¬ p <:+: a) (hb : ¬ p <:+: b)
    (hcross : ∀ p₁ p₂, p = p₁ ++ p₂ → p₁ ≠ [] → p₂ ≠ [] → ¬ (p₁ <:+ a ∧ p₂ <+: b)) :
    ¬ p <:+: a ++ b := by
  intro h
  rcases infix_append_split h with h | h | ⟨p₁, p₂, heq, h₁, h₂, hsuf, hpre⟩
  · exact ha h
  · exact hb h
  · exact hcross p₁ p₂ heq h₁ h₂ ⟨hsuf, hpre⟩

theorem head?_append_of_head {l r : List Char} {c : Char} (h : l.head? = some c) :
    (l ++ r).head? = some c := by
  cases l with
  | nil => simp at h
  | cons x xs => simpa using h

/-- Straddling is impossible when `b` starts with a character that does not
occur in `p`. -/
theorem cross_head {p b : List Char} (c : Char) (hb : b.head? = some c)
    (hc : c ∉ p) (a : List Char) :
    ∀ p₁ p₂, p = p₁ ++ p₂ → p₁ ≠ [] → p₂ ≠ [] → ¬ (p₁ <:+ a ∧ p₂ <+: b) := by
  rintro p₁ p₂ heq h₁ h₂ ⟨hs, hp⟩
  cases p₂ with
  | nil => exact h₂ rfl
  | cons c₂ p₂' =>
    obtain ⟨u, hu⟩ := hp
    have hc₂ : b.head? = some c₂ := by rw [← hu]; rfl
    have : c₂ = c := by rw [hb] at hc₂; exact (Option.some_inj.mp hc₂).symm
    subst this
    exact hc (heq ▸ List.mem_append.mpr (Or.inr (List.mem_cons_self c₂ p₂')))

/-- Decidable check that no nonempty prefix of `p` is a suffix of `a`:
rules out straddles whose left part falls inside the (concrete) chunk `a`. -/
def noCrossB (p a : List Char) : Bool :=
  (List.range p.length).all (fun k => !((p.take (k + 1)).isSuffixOf a))

theorem cross_noCross {p a : List Char} (hnc : noCrossB p a = true) (b : List Char) :
    ∀ p₁ p₂, p = p₁ ++ p₂ → p₁ ≠ [] → p₂ ≠ [] → ¬ (p₁ <:+ a ∧ p₂ <+: b) := by
  rintro p₁ p₂ heq h₁ h₂ ⟨hs, _⟩
  have hp₁ : p.take p₁.length = p₁ := by rw [heq]; exact List.take_left p₁ p₂
  have hlen : 0 < p₁.length := List.length_pos.mpr h₁
  have hle : p₁.length ≤ p.length := by
    rw [heq]; simp only [List.length_append]; omega
  have hk : p₁.length - 1 < p.length := by omega
  have hall := (List.all_eq_true.mp hnc) (p₁.length - 1) (List.mem_range.mpr hk)
  have e : p₁.length - 1 + 1 = p₁.length := by omega
  rw [e, hp₁] at hall
  simp only [Bool.not_eq_true', ← Bool.not_eq_true, List.isSuffixOf_iff_suffix] at hall
  exact hall hs

theorem infix_append_of_right {p b : List Char} (a : List Char) (h : p <:+: b) :
    p <:+: a ++ b := by
  obtain ⟨s, t, hst⟩ := h
  exact ⟨a ++ s, t, by rw [← hst]; simp [List.append_assoc]⟩

theorem infix_append_of_left {p a : List Char} (b : List Char) (h : p <:+: a) :
    p <:+: a ++ b := by
  obtain ⟨s, t, hst⟩ := h
  exact ⟨s, t ++ b, by rw [← hst]; simp [List.append_assoc]⟩

/-! ### Decimal rendering facts: `Nat.repr` produces only digits -/

theorem toDigitsCore_mem : ∀ (fuel n : Nat) (acc : List Char),
    (∀ c ∈ acc, c ∈ "0123456789".toList) →
    ∀ c ∈ Nat.toDigitsCore 10 fuel n acc, c ∈ "0123456789".toList := by
  intro fuel
  induction fuel with
  | zero =>
    intro n acc hacc c hc
    exact hacc c hc
  | succ f ih =>
    intro n acc hacc c hc
    simp only [Nat.toDigitsCore] at hc
    have hdig : Nat.digitChar (n % 10) ∈ "0123456789".toList := by
      have hlt : n % 10 < 10 := Nat.mod_lt n (by omega)
      revert hlt
      have : ∀ m, m < 10 → Nat.digitChar m ∈ "0123456789".toList := by decide
      exact this (n % 10)
    split at hc
    · rcases List.mem_cons.mp hc with h | h
      · exact h ▸ hdig
      · exact hacc c h
    · refine ih (n / 10) (Nat.digitChar (n % 10) :: acc) ?_ c hc
      intro c' hc'
      rcases List.mem_cons.mp hc' with h | h
      · exact h ▸ hdig
      · exact hacc c' h

theorem repr_digits (n : Nat) : ∀ c ∈ (Nat.repr n).toList, c ∈ "0123456789".toList := by
  intro c hc
  exact toDigitsCore_mem (n + 1) n [] (by simp) c hc

theorem not_infix_repr {p : List Char} (hS : 'S' ∈ p) (n : Nat) :
    ¬ p <:+: (Nat.repr n).toList := by
  intro h
  exact absurd (repr_digits n 'S' (h.subset hS)) (by decide)

/-- Absence of a pattern containing `'S'` (such as the HSTS header name) from a
rendered template, provided it occurs in none of the caller-supplied pieces and
cannot straddle any chunk boundary. -/
theorem render_pattern_free (p domain host cfgdir mid tail : String) (port : Nat)
    (hS : 'S' ∈ p.toList)
    (hd : containsStr domain p = false)
    (hh : containsStr host p = false)
    (hc : containsStr cfgdir p = false)
    (hm : ¬ p.toList <:+: mid.toList)
    (ht : ¬ p.toList <:+: tail.toList)
    (hproxy : ¬ p.toList <:+: chunkProxy.toList)
    (hcolon : ¬ p.toList <:+: (":" : String).toList)
    (hmhead : mid.toList.head? = some ' ')
    (hthead : tail.toList.head? = some '/')
    (hspace : ' ' ∉ p.toList)
    (hcolonc : ':' ∉ p.toList)
    (hslash : '/' ∉ p.toList)
    (hncm : noCrossB p.toList mid.toList = true)
    (hncp : noCrossB p.toList chunkProxy.toList = true)
    (hncc : noCrossB p.toList (":" : String).toList = true) :
    containsStr (domain ++ chunkProxy ++ host ++ ":" ++ Nat.repr port ++ mid ++ cfgdir ++ tail)
      p = false := by
  rw [containsStr_false_iff] at hd hh hc ⊢
  simp only [toList_app, List.append_assoc]
  have n7 : ¬ p.toList <:+: cfgdir.toList ++ tail.toList :=
    not_infix_append_aux hc ht (cross_head '/' hthead hslash _)
  have n6 : ¬ p.toList <:+: mid.toList ++ (cfgdir.toList ++ tail.toList) :=
    not_infix_append_aux hm n7 (cross_noCross hncm _)
  have n5 : ¬ p.toList <:+:
      (Nat.repr port).toList ++ (mid.toList ++ (cfgdir.toList ++ tail.toList)) :=
    not_infix_append_aux (not_infix_repr hS port) n6
      (cross_head ' ' (head?_append_of_head hmhead) hspace _)
  have n4 : ¬ p.toList <:+: (":" : String).toList ++
      ((Nat.repr port).toList ++ (mid.toList ++ (cfgdir.toList ++ tail.toList))) :=
    not_infix_append_aux hcolon n5 (cross_noCross hncc _)
  have n3 : ¬ p.toList <:+: host.toList ++ ((":" : String).toList ++
      ((Nat.repr port).toList ++ (mid.toList ++ (cfgdir.toList ++ tail.toList)))) :=
    not_infix_append_aux hh n4
      (cross_head ':' (head?_append_of_head (show (":" : String).toList.head? = some ':' by decide))
        hcolonc _)
  have n2 : ¬ p.toList <:+: chunkProxy.toList ++ (host.toList ++ ((":" : String).toList ++
      ((Nat.repr port).toList ++ (mid.toList ++ (cfgdir.toList ++ tail.toList))))) :=
    not_infix_append_aux hproxy n3 (cross_noCross hncp _)
  exact not_infix_append_aux hd n2
    (cross_head ' '
      (head?_append_of_head (show chunkProxy.toList.head? = some ' ' by decide)) hspace _)

/-- A needle occurring in the `mid` chunk occurs in the whole rendered config. -/
theorem contains_of_mid (needle domain host cfgdir mid tail : String) (port : Nat)
    (h : needle.toList <:+: mid.toList) :
    containsStr (domain ++ chunkProxy ++ host ++ ":" ++ Nat.repr port ++ mid ++ cfgdir ++ tail)
      needle = true := by
  rw [containsStr_iff]
  simp only [toList_app, List.append_assoc]
  apply infix_append_of_right
  apply infix_append_of_right
  apply infix_append_of_right
  apply infix_append_of_right
  apply infix_append_of_right
  exact infix_append_of_left _ h

/-! ### Claims about `generate_config` -/

/-- C10: the `enable_ssl` parameter is dead — the function never reads it, so
the written configuration text is identical for any two values of the flag. -/
theorem c10_enable_ssl_no_effect (cfgdir domain host : String) (port : Nat)
    (custom : Option String) (b₁ b₂ : Bool) :
    generate_config cfgdir domain host port b₁ custom =
      generate_config cfgdir domain host port b₂ custom := rfl

/-- Modelled from the claim's wording only (for refutation): a listen spec
"denotes port 80" when its port component — the text after the last colon —
is literally `80`. -/
def denotesPort80Spec (d : String) : Bool :=
  containsStr d ":" &&
    ((⟨(d.toList.reverse.takeWhile (fun c => !(c == ':'))).reverse⟩ : String) == "80")

/-- C2 (counterexample): `example.com:8080` is not local and does not denote
port 80, yet the rendered config contains no HSTS header, because the code
tests the substring `":80"`, which also matches `:8080`. -/
theorem c2_counterexample :
    isLocalDomain "example.com:8080" = false ∧
    denotesPort80Spec "example.com:8080" = false ∧
    containsStr (generate_config "/home/user/.caddy" "example.com:8080" "127.0.0.1" 3000 false none)
      "Strict-Transport-Security \"max-age=31536000; includeSubDomains\"" = false ∧
    containsStr (generate_config "/home/user/.caddy" "example.com:8080" "127.0.0.1" 3000 false none)
      "Strict-Transport-Security" = false :=
  ⟨by decide, by decide, by decide, by decide⟩

/-- C2 (amended): for every listen spec that is not classified local and does
not contain the substring `":80"`, the rendered configuration (no custom
override) includes the HSTS header line, and the variant selected is the
HTTPS production one — a function of the listen spec string alone. -/
theorem c2_hsts_for_public (cfgdir domain host : String) (port : Nat) (enable_ssl : Bool)
    (hloc : isLocalDomain domain = false)
    (h80 : containsStr domain ":80" = false) :
    selectVariant domain = ConfigVariant.httpsProd ∧
    containsStr (generate_config cfgdir domain host port enable_ssl none)
      "Strict-Transport-Security \"max-age=31536000; includeSubDomains\"" = true := by
  have hne : domain ≠ ":80" := by
    intro h
    rw [h] at h80
    exact absurd h80 (by decide)
  have hho : isHttpOnly domain = false := by
    unfold isHttpOnly
    rw [h80]
    simp only [Bool.false_or, beq_eq_false_iff_ne, ne_eq]
    exact hne
  have hsel : selectVariant domain = .httpsProd := by
    unfold selectVariant
    rw [hloc, hho]
    simp
  refine ⟨hsel, ?_⟩
  have hg : generate_config cfgdir domain host port enable_ssl none =
      domain ++ chunkProxy ++ host ++ ":" ++ Nat.repr port ++ httpsMid ++ cfgdir ++ prodTail := by
    show renderVariant (selectVariant domain) cfgdir domain host port = _
    rw [hsel]
    rfl
  rw [hg]
  exact contains_of_mid _ domain host cfgdir httpsMid prodTail port
    ((listInfixB_iff _ _).mp (by decide))

/-- Witness for `c2_hsts_for_public` at `example.com`. -/
theorem c2_hsts_for_public_witness :
    isLocalDomain "example.com" = false ∧
    containsStr "example.com" ":80" = false ∧
    selectVariant "example.com" = ConfigVariant.httpsProd ∧
    containsStr (generate_config "/home/user/.caddy" "example.com" "127.0.0.1" 3000 false none)
      "Strict-Transport-Security \"max-age=31536000; includeSubDomains\"" = true := by
  have h := c2_hsts_for_public "/home/user/.caddy" "example.com" "127.0.0.1" 3000 false
    (by decide) (by decide)
  exact ⟨by decide, by decide, h.1, h.2⟩

/-- C7: for every listen spec starting with `localhost`, `127.` or `0.0.0.0`
(and inputs that do not themselves smuggle the header name in), the rendered
configuration omits `Strict-Transport-Security` and carries the local
security-header profile. -/
theorem c7_local_profile (cfgdir domain host : String) (port : Nat) (enable_ssl : Bool)
    (hloc : (strStarts "localhost" domain || strStarts "127." domain ||
      strStarts "0.0.0.0" domain) = true)
    (hd : containsStr domain "Strict-Transport-Security" = false)
    (hh : containsStr host "Strict-Transport-Security" = false)
    (hc : containsStr cfgdir "Strict-Transport-Security" = false) :
    containsStr (generate_config cfgdir domain host port enable_ssl none)
      "Strict-Transport-Security" = false ∧
    containsStr (generate_config cfgdir domain host port enable_ssl none)
      "X-Frame-Options \"SAMEORIGIN\"" = true ∧
    containsStr (generate_config cfgdir domain host port enable_ssl none)
      "X-Content-Type-Options \"nosniff\"" = true ∧
    containsStr (generate_config cfgdir domain host port enable_ssl none)
      "-Server" = true := by
  have hl : isLocalDomain domain = true := by
    simp only [Bool.or_eq_true] at hloc
    simp only [isLocalDomain, Bool.or_eq_true]
    tauto
  have hsel : selectVariant domain = .localDev := by
    unfold selectVariant
    rw [hl]
    simp
  have hg : generate_config cfgdir domain host port enable_ssl none =
      domain ++ chunkProxy ++ host ++ ":" ++ Nat.repr port ++ localMid ++ cfgdir ++ localTail := by
    show renderVariant (selectVariant domain) cfgdir domain host port = _
    rw [hsel]
    rfl
  rw [hg]
  refine ⟨?_, ?_, ?_, ?_⟩
  · exact render_pattern_free _ domain host cfgdir localMid localTail port (by decide) hd hh hc
      ((containsStr_false_iff _ _).mp (by decide)) ((containsStr_false_iff _ _).mp (by decide))
      ((containsStr_false_iff _ _).mp (by decide)) ((containsStr_false_iff _ _).mp (by decide))
      (by decide) (by decide) (by decide) (by decide) (by decide)
      (by decide) (by decide) (by decide)
  · exact contains_of_mid _ domain host cfgdir localMid localTail port
      ((listInfixB_iff _ _).mp (by decide))
  · exact contains_of_mid _ domain host cfgdir localMid localTail port
      ((listInfixB_iff _ _).mp (by decide))
  · exact contains_of_mid _ domain host cfgdir localMid localTail port
      ((listInfixB_iff _ _).mp (by decide))

/-- Witness for `c7_local_profile` at `localhost:3000`. -/
theorem c7_local_profile_witness :
    (strStarts "localhost" "localhost:3000" || strStarts "127." "localhost:3000" ||
      strStarts "0.0.0.0" "localhost:3000") = true ∧
    containsStr "localhost:3000" "Strict-Transport-Security" = false ∧
    containsStr "127.0.0.1" "Strict-Transport-Security" = false ∧
    containsStr "/home/user/.caddy" "Strict-Transport-Security" = false ∧
    containsStr (generate_config "/home/user/.caddy" "localhost:3000" "127.0.0.1" 3000 false none)
      "Strict-Transport-Security" = false ∧
    containsStr (generate_config "/home/user/.caddy" "localhost:3000" "127.0.0.1" 3000 false none)
      "X-Frame-Options \"SAMEORIGIN\"" = true := by
  have h := c7_local_profile "/home/user/.caddy" "localhost:3000" "127.0.0.1" 3000 false
    (by decide) (by decide) (by decide) (by decide)
  exact ⟨by decide, by decide, by decide, by decide, h.1, h.2.1⟩

/-! ### Health aggregation (claims C1 and C9) -/

theorem overallStatus_eq_healthy_iff (l : List (String × CheckResult)) :
    overallStatus l = "healthy" ↔
      l.all (fun c => !c.2.required || c.2.status == "ok") = true := by
  unfold overallStatus
  by_cases h : l.all (fun c => !c.2.required || c.2.status == "ok") = true
  · rw [if_pos h]
    simp [h]
  · rw [if_neg h]
    constructor
    · intro habs
      exact absurd habs (by decide)
    · intro hb
      exact absurd hb h

theorem overallStatus_eq_unhealthy_iff (l : List (String × CheckResult)) :
    overallStatus l = "unhealthy" ↔ ∃ c ∈ l, c.2.required = true ∧ c.2.status ≠ "ok" := by
  unfold overallStatus
  by_cases h : l.all (fun c => !c.2.required || c.2.status == "ok") = true
  · rw [if_pos h]
    simp only [List.all_eq_true] at h
    constructor
    · intro habs
      exact absurd habs (by decide)
    · rintro ⟨c, hc, hreq, hst⟩
      have hp := h c hc
      rw [hreq] at hp
      simp only [Bool.not_true, Bool.false_or, beq_iff_eq] at hp
      exact absurd hp hst
  · rw [if_neg h]
    constructor
    · intro _
      rw [List.all_eq_true] at h
      push_neg at h
      obtain ⟨c, hc, hne⟩ := h
      refine ⟨c, hc, ?_, ?_⟩
      · cases hr : c.2.required
        · exact absurd (show (!c.2.required || c.2.status == "ok") = true by
            rw [hr]; rfl) hne
        · rfl
      · intro hst
        exact hne (by rw [hst]; simp)
    · intro _
      rfl

/-- C1: a health report is `unhealthy` iff some check with `required=true` has
a status other than `ok`; and in any checks list, rewriting the status of an
entry whose result has `required=false` to `error` or `warning` leaves a
`healthy` aggregate `healthy`. -/
theorem c1_overall_aggregation :
    (∀ (w : World) (detailed : Bool),
      ((health_check w detailed).overall_status = "unhealthy" ↔
        ∃ c ∈ (health_check w detailed).checks, c.2.required = true ∧ c.2.status ≠ "ok")) ∧
    (∀ (l : List (String × CheckResult)) (i : Nat) (hi : i < l.length) (s : String),
      (l.get ⟨i, hi⟩).2.required = false →
      (s = "error" ∨ s = "warning") →
      overallStatus l = "healthy" →
      overallStatus (l.set i ((l.get ⟨i, hi⟩).1,
        { (l.get ⟨i, hi⟩).2 with status := s })) = "healthy") := by
  constructor
  · intro w detailed
    exact overallStatus_eq_unhealthy_iff _
  · intro l i hi s hreq _ hh
    rw [overallStatus_eq_healthy_iff] at hh ⊢
    rw [List.all_eq_true] at hh ⊢
    intro x hx
    rcases List.mem_or_eq_of_mem_set hx with hmem | heq
    · exact hh x hmem
    · subst heq
      simp only [List.get_eq_getElem] at hreq
      simp [hreq]

/-- Witness scenario for `c1_overall_aggregation`: a healthy two-check list
whose `required=false` entry is flipped to `error`. -/
theorem c1_overall_aggregation_witness :
    overallStatus [("process", ⟨"ok", true, "m"⟩), ("backend", ⟨"ok", false, "m"⟩)] = "healthy" ∧
    overallStatus ([("process", ⟨"ok", true, "m"⟩), ("backend", ⟨"ok", false, "m"⟩)].set 1
      ("backend", ⟨"error", false, "m"⟩)) = "healthy" := by
  constructor
  · decide
  · exact c1_overall_aggregation.2
      [("process", ⟨"ok", true, "m"⟩), ("backend", ⟨"ok", false, "m"⟩)] 1 (by decide)
      "error" rfl (Or.inl rfl) (by decide)

theorem _check_process_status_mem (w : World) :
    (["ok", "warning", "error", "info"].contains (_check_process w).status) = true := by
  unfold _check_process
  split
  · decide
  · split
    · split <;> decide
    · decide

theorem _check_config_status_mem (w : World) :
    (["ok", "warning", "error", "info"].contains (_check_config w).status) = true := by
  unfold _check_config
  split
  · decide
  · split <;> decide

theorem _check_ports_status_mem (w : World) :
    (["ok", "warning", "error", "info"].contains (_check_ports w).status) = true := by
  unfold _check_ports
  split <;> decide

theorem _check_frontend_status_mem (w : World) :
    (["ok", "warning", "error", "info"].contains (_check_frontend_connectivity w).status)
      = true := by
  simp only [_check_frontend_connectivity]
  split <;> decide

theorem _check_backend_status_mem (w : World) :
    (["ok", "warning", "error", "info"].contains (_check_backend_connectivity w).status)
      = true := by
  simp only [_check_backend_connectivity]
  split
  · decide
  · split <;> decide

theorem _check_ssl_status_mem (w : World) :
    (["ok", "warning", "error", "info"].contains (_check_ssl_status w).status) = true := by
  simp only [_check_ssl_status]
  split
  · decide
  · split <;> decide

/-- C9: the aggregation is fail-soft.  Every run reports exactly the six
checks in order, each with a well-formed status, and an exception inside any
individual check's probe surfaces as that check's own result without aborting
the report: a PID-file parse error makes `process` an `error`, a failed
validation makes `config` an `error`, a port probe that raises makes `ports`
an `error`, all HTTP probes failing makes `frontend` an `error`, an unparsable
backend spec (the `split(':')`/`int` raise) makes `backend` a `warning` with
`required=false`, and a certificate probe failure makes `ssl` a `warning`. -/
theorem c9_fail_soft (w : World) (detailed : Bool) (e : PyErr) :
    (health_check w detailed).checks.map Prod.fst =
      ["process", "config", "ports", "frontend", "backend", "ssl"] ∧
    ((health_check w detailed).checks.all (fun c =>
      ["ok", "warning", "error", "info"].contains c.2.status)) = true ∧
    (_check_process { w with
      pidFileExists := true
      pidFileParse := .error e
      anyCaddy := true }).status = "error" ∧
    (_check_config { w with
      configExists := true
      validateOk := false }).status = "error" ∧
    (_check_ports { w with
      extractedPorts := [80]
      portListening := fun _ => .error e }).status = "error" ∧
    (_check_frontend_connectivity { w with
      frontendEndpoints := ["http://localhost:80"]
      httpTest := fun _ => false }).status = "error" ∧
    (_check_backend_connectivity { w with
      backends := ["localhost"] }).status = "warning" ∧
    (_check_backend_connectivity { w with
      backends := ["localhost"] }).required = false ∧
    (_check_ssl_status { w with
      frontendEndpoints := ["https://example.com"]
      certValid := fun _ => false }).status = "warning" := by
  refine ⟨rfl, ?_, rfl, rfl, rfl, rfl, rfl, rfl, rfl⟩
  show ([("process", _check_process w), ("config", _check_config w),
    ("ports", _check_ports w), ("frontend", _check_frontend_connectivity w),
    ("backend", _check_backend_connectivity w), ("ssl", _check_ssl_status w)].all
      (fun c => ["ok", "warning", "error", "info"].contains c.2.status)) = true
  simp only [List.all_cons, List.all_nil, Bool.and_eq_true]
  exact ⟨_check_process_status_mem w, _check_config_status_mem w,
    _check_ports_status_mem w, _check_frontend_status_mem w,
    _check_backend_status_mem w, _check_ssl_status_mem w, trivial⟩

/-! ### Lifecycle claims (C3, C4, C5, C6, C8) -/

theorem pollFrom_congr (obs obs' : Nat → PollObs) :
    ∀ (fuel i : Nat), (∀ k, i ≤ k → k < i + fuel → obs k = obs' k) →
      pollFrom obs i fuel = pollFrom obs' i fuel := by
  intro fuel
  induction fuel with
  | zero =>
    intro i h
    rfl
  | succ f ih =>
    intro i h
    have h0 : obs i = obs' i := h i (Nat.le_refl i) (by omega)
    simp only [pollFrom, h0]
    cases hpa : (obs' i).pidAlive with
    | true => simp [hpa]
    | false =>
      simp only [hpa, Bool.false_eq_true, if_false]
      cases herr : _check_startup_errors (obs' i).logTail with
      | some e => simp [herr]
      | none =>
        simp only [herr]
        exact ih (i + 1) (fun k hk1 hk2 => h k (by omega) (by omega))

theorem pollFrom_timeout (obs : Nat → PollObs) :
    ∀ (fuel i : Nat),
      (∀ k, i ≤ k → k < i + fuel →
        (obs k).pidAlive = false ∧ _check_startup_errors (obs k).logTail = none) →
      pollFrom obs i fuel = .timeout := by
  intro fuel
  induction fuel with
  | zero =>
    intro i h
    rfl
  | succ f ih =>
    intro i h
    have h0 := h i (Nat.le_refl i) (by omega)
    simp only [pollFrom, h0.1, Bool.false_eq_true, if_false, h0.2]
    exact ih (i + 1) (fun k hk1 hk2 => h k (by omega) (by omega))

theorem pollFrom_fail_at (obs : Nat → PollObs) (v : String) :
    ∀ (fuel k i : Nat), k < fuel →
      (∀ j, j < k → (obs (i + j)).pidAlive = false ∧
        _check_startup_errors (obs (i + j)).logTail = none) →
      (obs (i + k)).pidAlive = false →
      _check_startup_errors (obs (i + k)).logTail = some v →
      pollFrom obs i fuel = .startFailed v := by
  intro fuel
  induction fuel with
  | zero =>
    intro k i hk
    omega
  | succ f ih =>
    intro k i hk hbef hna herr
    cases k with
    | zero =>
      simp only [Nat.add_zero] at hna herr
      simp [pollFrom, hna, herr]
    | succ k' =>
      have h0 := hbef 0 (by omega)
      simp only [Nat.add_zero] at h0
      simp only [pollFrom, h0.1, Bool.false_eq_true, if_false, h0.2]
      have hidx : i + 1 + k' = i + (k' + 1) := by omega
      refine ih k' (i + 1) (by omega) ?_ ?_ ?_
      · intro j hj
        have hb := hbef (j + 1) (by omega)
        have e : i + (j + 1) = i + 1 + j := by omega
        rw [e] at hb
        exact hb
      · rw [hidx]
        exact hna
      · rw [hidx]
        exact herr

theorem findSome?_append_first {α β : Type} (f : α → Option β) (v : β) :
    ∀ (pre : List α) (x : α) (post : List α),
      (∀ l ∈ pre, f l = none) → f x = some v →
      (pre ++ x :: post).findSome? f = some v := by
  intro pre
  induction pre with
  | nil =>
    intro x post _ hx
    simp [List.findSome?_cons, hx]
  | cons a as ih =>
    intro x post hnone hx
    have ha : f a = none := hnone a (List.mem_cons_self a as)
    simp only [List.cons_append, List.findSome?_cons, ha]
    exact ih x post (fun l hl => hnone l (List.mem_cons_of_mem a hl)) hx

theorem classifyLine_addr (line : String)
    (herr : isErrorLine line = true)
    (haddr : containsStr (pyLower (pyStrip line)) "address already in use" = true) :
    classifyLine line = some "端口被占用" := by
  unfold isErrorLine at herr
  unfold classifyLine
  rw [if_pos herr, if_pos haddr]

theorem classifyLine_none (line : String) (h : isErrorLine line = false) :
    classifyLine line = none := by
  unfold isErrorLine at h
  simp [classifyLine, h]

/-- C3 (amended): during the startup polling loop, if at an iteration within
the 10-iteration bound the fresh PID is not alive and the first line of the
10-line log tail that contains `error:` or `failed` (stripped, lowercased)
also contains `address already in use`, the failure is classified as the
port-in-use kind (`"端口被占用"`) and `deploy` fails in that iteration rather
than timing out. -/
theorem c3_port_in_use_amended (w : World) (i : Nat) (hi : i < 10)
    (hbefore : ∀ j, j < i → (w.poll j).pidAlive = false ∧
      _check_startup_errors (w.poll j).logTail = none)
    (hna : (w.poll i).pidAlive = false)
    (pre post : List String) (line : String)
    (hsplit : lastN 10 (w.poll i).logTail = pre ++ line :: post)
    (hpre : ∀ l ∈ pre, isErrorLine l = false)
    (herr : isErrorLine line = true)
    (haddr : containsStr (pyLower (pyStrip line)) "address already in use" = true) :
    deployPoll w.poll = StartOutcome.startFailed "端口被占用" ∧ (deploy w).1 = false := by
  have hcse : _check_startup_errors (w.poll i).logTail = some "端口被占用" := by
    unfold _check_startup_errors
    rw [hsplit]
    exact findSome?_append_first classifyLine _ pre line post
      (fun l hl => classifyLine_none l (hpre l hl)) (classifyLine_addr line herr haddr)
  have hpoll : deployPoll w.poll = .startFailed "端口被占用" := by
    unfold deployPoll
    refine pollFrom_fail_at w.poll _ 10 i 0 hi ?_ ?_ ?_
    · intro j hj
      simpa using hbefore j (by omega)
    · simpa using hna
    · simpa using hcse
  exact ⟨hpoll, by simp [deploy, hpoll]⟩

/-- C3 (counterexample to the claim as stated): a log tail whose only line
contains `address already in use` but neither `error:` nor `failed` is not
classified at all — `_check_startup_errors` returns nothing and the loop runs
to its timeout instead of failing immediately with the port-in-use kind. -/
theorem c3_counterexample :
    containsStr "2024/01/15 listen tcp 127.0.0.1:80: address already in use"
      "address already in use" = true ∧
    _check_startup_errors
      ["2024/01/15 listen tcp 127.0.0.1:80: address already in use"] = none ∧
    deployPoll (fun _ =>
      ⟨false, ["2024/01/15 listen tcp 127.0.0.1:80: address already in use"]⟩) =
      StartOutcome.timeout := by
  refine ⟨by decide, by decide, by decide⟩

/-- Witness for `c3_port_in_use_amended` on the scenario `c3World`. -/
theorem c3_port_in_use_amended_witness :
    (c3World.poll 0).pidAlive = false ∧
    isErrorLine "error: listen tcp 127.0.0.1:80: address already in use" = true ∧
    containsStr (pyLower (pyStrip "error: listen tcp 127.0.0.1:80: address already in use"))
      "address already in use" = true ∧
    deployPoll c3World.poll = StartOutcome.startFailed "端口被占用" ∧
    (deploy c3World).1 = false := by
  have h := c3_port_in_use_amended c3World 0 (by omega)
    (fun j hj => absurd hj (by omega)) rfl
    [] [] "error: listen tcp 127.0.0.1:80: address already in use" rfl
    (fun l hl => absurd hl (List.not_mem_nil l)) (by decide) (by decide)
  exact ⟨rfl, by decide, by decide, h.1, h.2⟩

/-- C8: when within the 10-iteration bound the fresh PID never becomes alive
and no startup error is classified, the loop ends in a timeout, `deploy`
returns failure and surfaces the last 5 of the last 10 stripped log lines;
moreover the loop's outcome depends only on the first 10 observations. -/
theorem c8_timeout_bound (w : World)
    (h : ∀ i, i < 10 → (w.poll i).pidAlive = false ∧
      _check_startup_errors (w.poll i).logTail = none) :
    deployPoll w.poll = StartOutcome.timeout ∧
    (deploy w).1 = false ∧
    ((_get_recent_logs w 10).isEmpty = false →
      Act.logDiag (lastN 5 (_get_recent_logs w 10)) ∈ (deploy w).2) ∧
    (∀ obs obs' : Nat → PollObs, (∀ i, i < 10 → obs i = obs' i) →
      deployPoll obs = deployPoll obs') := by
  have hpoll : deployPoll w.poll = .timeout :=
    pollFrom_timeout w.poll 10 0 (fun k hk1 hk2 => h k (by omega))
  refine ⟨hpoll, ?_, ?_, ?_⟩
  · simp [deploy, hpoll]
  · intro hne
    simp [deploy, hpoll, hne]
  · intro obs obs' hobs
    exact pollFrom_congr obs obs' 10 0 (fun k hk1 hk2 => hobs k (by omega))

/-- Witness for `c8_timeout_bound` on the scenario `c8World`. -/
theorem c8_timeout_bound_witness :
    (∀ i, i < 10 → (c8World.poll i).pidAlive = false ∧
      _check_startup_errors (c8World.poll i).logTail = none) ∧
    deployPoll c8World.poll = StartOutcome.timeout ∧
    (deploy c8World).1 = false ∧
    (_get_recent_logs c8World 10).isEmpty = false ∧
    Act.logDiag (lastN 5 (_get_recent_logs c8World 10)) ∈ (deploy c8World).2 := by
  have h : ∀ i, i < 10 → (c8World.poll i).pidAlive = false ∧
      _check_startup_errors (c8World.poll i).logTail = none := fun i _ => ⟨rfl, rfl⟩
  have hc := c8_timeout_bound c8World h
  exact ⟨h, hc.1, hc.2.1, rfl, hc.2.2.1 rfl⟩

/-- C6: `undeploy` on a service that is not running returns success with an
empty effect trace — no signal is sent, no file (PID file included) is
touched. -/
theorem c6_undeploy_noop (w : World) (h : is_running w = false) :
    undeploy w = (true, []) := by
  simp [undeploy, h]

/-- Witness for `c6_undeploy_noop` on the quiescent environment. -/
theorem c6_undeploy_noop_witness :
    is_running baseWorld = false ∧ undeploy baseWorld = (true, []) :=
  ⟨rfl, c6_undeploy_noop baseWorld rfl⟩

/-- C4 (divergence evidence): on `c4World` — process alive at SIGTERM time,
exited during the 2-second grace interval — `undeploy` still invokes
`os.kill(pid, 9)`: the trace records the SIGKILL invocation even though
`aliveAfterGrace` is false, because lines 432-437 contain no aliveness
re-check between `time.sleep(2)` and `os.kill(pid, 9)`. -/
theorem c4_sigkill_after_exit :
    c4World.aliveAfterGrace 4242 = false ∧
    undeploy c4World =
      (true, [Act.sigterm 4242, Act.sigkill 4242, Act.unlinkPidFile, Act.pkillCaddy]) ∧
    Act.sigkill 4242 ∈ (undeploy c4World).2 := by
  refine ⟨rfl, by decide, by decide⟩

/-- C5: `deploy` while the service is detected running performs the implicit
`undeploy` first — its actions precede the spawn and PID-file write in the
trace, it succeeds, and after its actions the old PID is no longer alive
(`pkill`/SIGKILL semantics) — and the call is neither rejected nor a no-op:
a new process is spawned and its PID recorded. -/
theorem c5_redeploy (w : World) (oldPid : Nat)
    (hrun : is_running w = true)
    (hex : w.pidFileExists = true)
    (hparse : w.pidFileParse = .ok oldPid) :
    ∃ tailActs,
      (deploy w).2 = conflictActs w ++ (undeploy w).2 ++
        [Act.spawn w.newPid, Act.writePidFile w.newPid] ++ tailActs ∧
      (undeploy w).1 = true ∧
      aliveAfterActs true oldPid (undeploy w).2 true = false ∧
      Act.spawn w.newPid ∈ (deploy w).2 ∧
      Act.writePidFile w.newPid ∈ (deploy w).2 := by
  have hu : undeploy w =
      (true, killSequence w oldPid ++ [Act.unlinkPidFile, Act.pkillCaddy]) := by
    simp [undeploy, hrun, hex, hparse]
  have halive : aliveAfterActs true oldPid (undeploy w).2 true = false := by
    rw [hu]
    cases hpa : w.pidAlive oldPid <;> simp [killSequence, hpa, aliveAfterActs]
  rcases hpoll : deployPoll w.poll with _ | e | _
  · refine ⟨[], ?_, by rw [hu], halive, ?_, ?_⟩
    · simp [deploy, hpoll, hrun]
    · simp [deploy, hpoll, hrun, hu]
    · simp [deploy, hpoll, hrun, hu]
  · refine ⟨[], ?_, by rw [hu], halive, ?_, ?_⟩
    · simp [deploy, hpoll, hrun]
    · simp [deploy, hpoll, hrun, hu]
    · simp [deploy, hpoll, hrun, hu]
  · refine ⟨if (_get_recent_logs w 10).isEmpty then []
        else [Act.logDiag (lastN 5 (_get_recent_logs w 10))],
      ?_, by rw [hu], halive, ?_, ?_⟩
    · simp [deploy, hpoll, hrun]
    · simp [deploy, hpoll, hrun, hu]
    · simp [deploy, hpoll, hrun, hu]

/-- Witness for `c5_redeploy` on the scenario `c5World`. -/
theorem c5_redeploy_witness :
    is_running c5World = true ∧
    c5World.pidFileExists = true ∧
    c5World.pidFileParse = Except.ok 4242 ∧
    (∃ tailActs,
      (deploy c5World).2 = conflictActs c5World ++ (undeploy c5World).2 ++
        [Act.spawn c5World.newPid, Act.writePidFile c5World.newPid] ++ tailActs ∧
      (undeploy c5World).1 = true ∧
      aliveAfterActs true 4242 (undeploy c5World).2 true = false ∧
      Act.spawn c5World.newPid ∈ (deploy c5World).2 ∧
      Act.writePidFile c5World.newPid ∈ (deploy c5World).2) :=
  ⟨rfl, rfl, rfl, c5_redeploy c5World 4242 rfl rfl rfl⟩

end Caddy
